import Mathlib

/-!
Verification of the two-device "Russian roulette" duel in
`src/main.cpp` (M5Core2 + BLE). The game logic — the per-role state
machines driven by `loop()`, the BLE receive callbacks, the choice
encoding (`sprintf` / `atoi`) and `resetGame()` — is embedded below as
pure Lean definitions. UI drawing, timing (`delay`, debounce) and the
BLE transport itself are modelled as an abstract event stream: one
`Event.tick` is one iteration of `loop()` (optionally carrying an
accepted, debounced click), and the asynchronous BLE callbacks are
events of their own.
-/

set_option autoImplicit false

/-- Embeds `enum Role { ROLE_UNDEFINED, ROLE_SHOOTER, ROLE_DODGER }`. -/
inductive Role where
  | ROLE_UNDEFINED
  | ROLE_SHOOTER
  | ROLE_DODGER
deriving DecidableEq, Repr

/-- Embeds `enum ShooterState { SHOOTER_WAIT_DODGER, SHOOTER_WAIT_INPUT, SHOOTER_SHOW_RESULT, SHOOTER_GAME_OVER }`. -/
inductive ShooterState where
  | SHOOTER_WAIT_DODGER
  | SHOOTER_WAIT_INPUT
  | SHOOTER_SHOW_RESULT
  | SHOOTER_GAME_OVER
deriving DecidableEq, Repr

/-- Embeds `enum DodgerState { DODGER_WAIT_INPUT, DODGER_WAIT_SHOT, DODGER_SHOW_RESULT, DODGER_GAME_OVER }`. -/
inductive DodgerState where
  | DODGER_WAIT_INPUT
  | DODGER_WAIT_SHOT
  | DODGER_SHOW_RESULT
  | DODGER_GAME_OVER
deriving DecidableEq, Repr

/-- Embeds `#define MAX_ROUNDS 5`. -/
def MAX_ROUNDS : Int := 5

/-- Embeds `#define NUM_BARRELS 3`. -/
def NUM_BARRELS : Int := 3

/-- Embeds the UI layout constants used by the touch handling. -/
def screenWidth : Int := 320

/-- Embeds `const int buttonWidth = 80`. -/
def buttonWidth : Int := 80

/-- Embeds `const int buttonHeight = 50`. -/
def buttonHeight : Int := 50

/-- Embeds `const int buttonY = 180`. -/
def buttonY : Int := 180

/-- Embeds `const int button1X = 40`. -/
def button1X : Int := 40

/-- Embeds `const int button2X = button1X + buttonWidth + buttonSpacing` (= 140). -/
def button2X : Int := 140

/-- Embeds `const int button3X = button2X + buttonWidth + buttonSpacing` (= 240). -/
def button3X : Int := 240

/-- Embeds the inclusive rectangle test used for the barrel buttons
(`detail.x >= rx && detail.x <= rx + rw && detail.y >= ry && detail.y <= ry + rh`,
also factored as `pointInRect` in the source). -/
def pointInRect (px py rx ry rw rh : Int) : Prop :=
  rx ≤ px ∧ px ≤ rx + rw ∧ ry ≤ py ∧ py ≤ ry + rh

instance (px py rx ry rw rh : Int) : Decidable (pointInRect px py rx ry rw rh) :=
  inferInstanceAs (Decidable (rx ≤ px ∧ px ≤ rx + rw ∧ ry ≤ py ∧ py ≤ ry + rh))

/-- Embeds the strict rectangle test for the restart button on the game-over
screen (`detail.x > screenWidth / 2 - 60 && detail.x < screenWidth / 2 + 60 &&
detail.y > 120 && detail.y < 160`). -/
def restartPressed (x y : Int) : Prop :=
  screenWidth / 2 - 60 < x ∧ x < screenWidth / 2 + 60 ∧ 120 < y ∧ y < 160

instance (x y : Int) : Decidable (restartPressed x y) :=
  inferInstanceAs (Decidable (screenWidth / 2 - 60 < x ∧ x < screenWidth / 2 + 60 ∧ 120 < y ∧ y < 160))

/-- Embeds the if/else-if cascade mapping a touch to a barrel number; if the
touch hits none of the three buttons the choice variable keeps its old value
(the source assigns only inside the matching branch). -/
def selectBarrel (x y old : Int) : Int :=
  if pointInRect x y button1X buttonY buttonWidth buttonHeight then 1
  else if pointInRect x y button2X buttonY buttonWidth buttonHeight then 2
  else if pointInRect x y button3X buttonY buttonWidth buttonHeight then 3
  else old

/-- Embeds the global game variables and BLE communication flags of
`main.cpp`. `remoteCharPresent` models `pRemoteCharacteristic != nullptr`. -/
structure GameState where
  deviceRole : Role
  shooterState : ShooterState
  dodgerState : DodgerState
  roundNumber : Int
  gameOver : Bool
  roundResultSafe : Bool
  dodgerChoice : Int
  shooterChoice : Int
  deviceConnected : Bool
  dodgerInputReceived : Bool
  notificationReceived : Bool
  receivedShooterChoice : Int
  remoteCharPresent : Bool
deriving DecidableEq, Repr

/-- Embeds `resetGame()`: resets the round counter, flags and choices. It does
not touch `shooterState` / `dodgerState` (the callers assign those right
after) nor the BLE connection status. -/
def resetGame (s : GameState) : GameState :=
  { s with
    roundNumber := 1
    gameOver := false
    roundResultSafe := false
    dodgerChoice := 0
    shooterChoice := 0
    dodgerInputReceived := false
    notificationReceived := false
    receivedShooterChoice := 0 }

/-- Embeds the C standard `isspace` set consumed by `atoi`. -/
def isSpaceChar (c : Char) : Bool :=
  c == ' ' || c == '\t' || c == '\n' || c == '\x0b' || c == '\x0c' || c == '\r'

/-- Accumulates the leading decimal digits of the payload, stopping at the
first non-digit character, as `atoi` does. -/
def atoiDigits : List Char → Int → Int
  | [], acc => acc
  | c :: cs, acc =>
      if c.isDigit then atoiDigits cs (acc * 10 + Int.ofNat (c.toNat - Char.toNat '0'))
      else acc

/-- Embeds `atoi` applied to the received payload: optional leading
whitespace, an optional sign, then leading digits; 0 when no digits are
found. -/
def atoi (p : List Char) : Int :=
  match p.dropWhile isSpaceChar with
  | '-' :: rest => - atoiDigits rest 0
  | '+' :: rest => atoiDigits rest 0
  | t => atoiDigits t 0

/-- Embeds `sprintf(buf, "%d", choice)`: the decimal textual representation
of the choice, as the list of characters put on the wire. -/
def encode (n : Int) : List Char :=
  if n < 0 then '-' :: Nat.toDigits 10 n.natAbs else Nat.toDigits 10 n.natAbs

/-- Embeds `MyCharacteristicCallbacks::onWrite`: any nonempty payload is
parsed with `atoi`, stored into `dodgerChoice`, and the
`dodgerInputReceived` latch is set; an empty payload is ignored. -/
def onWrite (s : GameState) (p : List Char) : GameState :=
  if p.length > 0 then
    { s with dodgerChoice := atoi p, dodgerInputReceived := true }
  else s

/-- Embeds `notifyCallback`: any nonempty payload is parsed with `atoi`,
stored into `receivedShooterChoice`, and the `notificationReceived` latch is
set; an empty payload is ignored. -/
def notifyCallback (s : GameState) (p : List Char) : GameState :=
  if p.length > 0 then
    { s with receivedShooterChoice := atoi p, notificationReceived := true }
  else s

/-- One observable occurrence driving the device: a `loop()` iteration
(optionally carrying one accepted, debounced click at the given screen
coordinates), a BLE write received by the server (`onWrite`), a BLE
notification received by the client (`notifyCallback`), or a connection
status change (`MyServerCallbacks`). -/
inductive Event where
  | tick : Option (Int × Int) → Event
  | bleWrite : List Char → Event
  | bleNotify : List Char → Event
  | connect : Event
  | disconnect : Event

/-- Embeds the shooter branch of `loop()` for one iteration. Returns the new
global state and the list of payloads handed to the BLE channel during this
iteration. -/
def shooterTick (s : GameState) (touch : Option (Int × Int)) :
    GameState × List (List Char) :=
  match s.shooterState with
  | ShooterState.SHOOTER_WAIT_DODGER =>
      if s.dodgerInputReceived then
        ({ s with shooterState := ShooterState.SHOOTER_WAIT_INPUT,
                  dodgerInputReceived := false }, [])
      else (s, [])
  | ShooterState.SHOOTER_WAIT_INPUT =>
      match touch with
      | none => (s, [])
      | some (x, y) =>
          let c := selectBarrel x y s.shooterChoice
          if 1 ≤ c ∧ c ≤ 3 then
            let s1 :=
              if c ≠ s.dodgerChoice then
                { s with shooterChoice := c, roundResultSafe := false, gameOver := true }
              else
                { s with shooterChoice := c, roundResultSafe := true }
            ({ s1 with shooterState := ShooterState.SHOOTER_SHOW_RESULT },
             if s.deviceConnected then [encode c] else [])
          else ({ s with shooterChoice := c }, [])
  | ShooterState.SHOOTER_SHOW_RESULT =>
      if s.gameOver = true ∨ (MAX_ROUNDS ≤ s.roundNumber ∧ s.roundResultSafe = true) then
        ({ s with shooterState := ShooterState.SHOOTER_GAME_OVER }, [])
      else
        ({ s with roundNumber := s.roundNumber + 1,
                  shooterState := ShooterState.SHOOTER_WAIT_DODGER }, [])
  | ShooterState.SHOOTER_GAME_OVER =>
      match touch with
      | none => (s, [])
      | some (x, y) =>
          if restartPressed x y then
            ({ resetGame s with shooterState := ShooterState.SHOOTER_WAIT_DODGER }, [])
          else (s, [])

/-- Embeds the dodger branch of `loop()` for one iteration. -/
def dodgerTick (s : GameState) (touch : Option (Int × Int)) :
    GameState × List (List Char) :=
  match s.dodgerState with
  | DodgerState.DODGER_WAIT_INPUT =>
      match touch with
      | none => (s, [])
      | some (x, y) =>
          let c := selectBarrel x y s.dodgerChoice
          if 1 ≤ c ∧ c ≤ 3 then
            ({ s with dodgerChoice := c, dodgerState := DodgerState.DODGER_WAIT_SHOT },
             if s.remoteCharPresent then [encode c] else [])
          else ({ s with dodgerChoice := c }, [])
  | DodgerState.DODGER_WAIT_SHOT =>
      if s.notificationReceived then
        let s1 :=
          if s.receivedShooterChoice ≠ s.dodgerChoice then
            { s with notificationReceived := false,
                     roundResultSafe := false, gameOver := true }
          else
            { s with notificationReceived := false, roundResultSafe := true }
        ({ s1 with dodgerState := DodgerState.DODGER_SHOW_RESULT }, [])
      else (s, [])
  | DodgerState.DODGER_SHOW_RESULT =>
      if s.gameOver = true ∨ (MAX_ROUNDS ≤ s.roundNumber ∧ s.roundResultSafe = true) then
        ({ s with dodgerState := DodgerState.DODGER_GAME_OVER }, [])
      else
        ({ s with roundNumber := s.roundNumber + 1,
                  dodgerState := DodgerState.DODGER_WAIT_INPUT }, [])
  | DodgerState.DODGER_GAME_OVER =>
      match touch with
      | none => (s, [])
      | some (x, y) =>
          if restartPressed x y then
            ({ resetGame s with dodgerState := DodgerState.DODGER_WAIT_INPUT }, [])
          else (s, [])

/-- The full step function of one device: dispatches a `tick` to the active
role's `loop()` branch and the BLE callback events to their handlers. -/
def step (s : GameState) (e : Event) : GameState × List (List Char) :=
  match e with
  | Event.tick touch =>
      match s.deviceRole with
      | Role.ROLE_SHOOTER => shooterTick s touch
      | Role.ROLE_DODGER => dodgerTick s touch
      | Role.ROLE_UNDEFINED => (s, [])
  | Event.bleWrite p => (onWrite s p, [])
  | Event.bleNotify p => (notifyCallback s p, [])
  | Event.connect => ({ s with deviceConnected := true }, [])
  | Event.disconnect => ({ s with deviceConnected := false }, [])

/-- The device's state when `loop()` first runs: role fixed by `setup()`,
`resetGame()` just executed, machine in its initial waiting state.
`rc` records whether the BLE client found the remote characteristic. -/
def initState (role : Role) (rc : Bool) : GameState :=
  { deviceRole := role
    shooterState := ShooterState.SHOOTER_WAIT_DODGER
    dodgerState := DodgerState.DODGER_WAIT_INPUT
    roundNumber := 1
    gameOver := false
    roundResultSafe := false
    dodgerChoice := 0
    shooterChoice := 0
    deviceConnected := false
    dodgerInputReceived := false
    notificationReceived := false
    receivedShooterChoice := 0
    remoteCharPresent := rc }

/-- Runs a list of events from a state, discarding the outbound messages. -/
def runEvents (s : GameState) : List Event → GameState
  | [] => s
  | e :: es => runEvents (step s e).1 es

/-- The states a device can reach from a given starting state under any
sequence of loop iterations, touches, BLE deliveries and connection
changes. -/
inductive Reachable (init : GameState) : GameState → Prop where
  | refl : Reachable init init
  | tail : ∀ s e, Reachable init s → Reachable init (step s e).1

/-- The verdict computed by `drawGameOverScreen` from `deviceRole` and
`roundResultSafe`; `true` means the device prints "You Win!". The shooter
wins iff the round was not safe; any other role takes the else branch and
wins iff the round was safe. -/
def verdictWin (role : Role) (safe : Bool) : Bool :=
  if role = Role.ROLE_SHOOTER then !safe else safe

/-- Modelled from the spec: the verdict derived from the elimination flag
(spec 4.3), used only to compare the screen's verdict against it. The
Initiator (Dodger) loses iff eliminated; the Responder (Shooter) wins iff
eliminated. -/
def verdictFromEliminated (role : Role) (eliminated : Bool) : Bool :=
  if role = Role.ROLE_SHOOTER then eliminated else !eliminated

/-- Projection of the game variables of a state, leaving out the two
connection-status fields. -/
def localVars (s : GameState) :
    Role × ShooterState × DodgerState × Int × Bool × Bool × Int × Int × Bool × Bool × Int :=
  (s.deviceRole, s.shooterState, s.dodgerState, s.roundNumber, s.gameOver,
   s.roundResultSafe, s.dodgerChoice, s.shooterChoice, s.dodgerInputReceived,
   s.notificationReceived, s.receivedShooterChoice)

/-- Shooter device as `loop()` first sees it. -/
def sInit : GameState := initState Role.ROLE_SHOOTER true

/-- Dodger device as `loop()` first sees it (remote characteristic found). -/
def dInit : GameState := initState Role.ROLE_DODGER true

/-- C9: for every position in [1, 3], parsing the wire encoding gives the
position back: `atoi (encode p) = p`. -/
theorem C9_decode_encode_roundtrip (p : Int) (h1 : 1 ≤ p) (h2 : p ≤ 3) :
    atoi (encode p) = p := by
  interval_cases p <;> decide

/-- Witness for C9 at the concrete position 2. -/
theorem C9_decode_encode_roundtrip_witness :
    (1 ≤ (2 : Int) ∧ (2 : Int) ≤ 3) ∧ atoi (encode 2) = 2 :=
  ⟨by decide, C9_decode_encode_roundtrip 2 (by decide) (by decide)⟩

/-- Shooter run in which the dodger hides in barrel 1 and the shooter shoots
barrel 2 (touch at (160, 200)): the positions differ. -/
def C1runMiss : GameState :=
  runEvents sInit
    [Event.bleWrite ['1'], Event.tick none, Event.tick (some (160, 200))]

/-- Shooter run in which the dodger hides in barrel 1 and the shooter shoots
barrel 1 (touch at (60, 200)): the positions coincide. -/
def C1runMatch : GameState :=
  runEvents sInit
    [Event.bleWrite ['1'], Event.tick none, Event.tick (some (60, 200))]

/-- Dodger run in which the dodger hides in barrel 1 and the shooter's
notification says barrel 2: the positions differ. -/
def C1runDodger : GameState :=
  runEvents dInit
    [Event.tick (some (60, 200)), Event.bleNotify ['2'], Event.tick none]

/-- C1: evaluation of the code at the failing inputs. The claim (and spec)
says the round is unsafe for the initiator iff the two positions are EQUAL
and Safe when they differ; the code does the opposite on both devices: with
dodger in barrel 1 and shooter shooting barrel 2 (a miss under the game's
own glossary) both machines record a hit (`roundResultSafe = false`,
`gameOver = true`), and with both on barrel 1 the shooter machine records
Safe and the session continues. -/
theorem C1_round_outcome_at_failing_input :
    (C1runMiss.dodgerChoice = 1 ∧ C1runMiss.shooterChoice = 2 ∧
     C1runMiss.gameOver = true ∧ C1runMiss.roundResultSafe = false ∧
     C1runMiss.shooterState = ShooterState.SHOOTER_SHOW_RESULT) ∧
    (C1runMatch.dodgerChoice = 1 ∧ C1runMatch.shooterChoice = 1 ∧
     C1runMatch.gameOver = false ∧ C1runMatch.roundResultSafe = true) ∧
    (C1runDodger.dodgerChoice = 1 ∧ C1runDodger.receivedShooterChoice = 2 ∧
     C1runDodger.gameOver = true ∧ C1runDodger.roundResultSafe = false) := by
  decide

/-- C4 counterexample: an out-of-range payload "7" and a malformed payload
"abc" each mutate the game state (choice variable overwritten, ready latch
set) instead of being discarded, and the malformed one advances the shooter
machine out of its waiting state on the next loop iteration. -/
theorem C4_malformed_message_mutates_state :
    ((step sInit (Event.bleWrite ['7'])).1.dodgerChoice = 7 ∧
     (step sInit (Event.bleWrite ['7'])).1.dodgerInputReceived = true ∧
     ¬ (step sInit (Event.bleWrite ['7'])).1 = sInit) ∧
    ((step sInit (Event.bleWrite ['a', 'b', 'c'])).1.dodgerChoice = 0 ∧
     (step sInit (Event.bleWrite ['a', 'b', 'c'])).1.dodgerInputReceived = true ∧
     ¬ (step sInit (Event.bleWrite ['a', 'b', 'c'])).1 = sInit ∧
     (runEvents sInit [Event.bleWrite ['a', 'b', 'c'], Event.tick none]).shooterState =
       ShooterState.SHOOTER_WAIT_INPUT) := by
  decide

/-- C4 (amended): the receive callbacks perform no validation at all — every
nonempty inbound payload, well-formed or not, overwrites the stored choice
with its `atoi` parse (0 when unparsable) and sets the corresponding ready
latch; only an empty payload is discarded with the state unchanged. -/
theorem C4_inbound_message_handling (s : GameState) (p : List Char) :
    (p ≠ [] →
      step s (Event.bleWrite p) =
        ({ s with dodgerChoice := atoi p, dodgerInputReceived := true }, []) ∧
      step s (Event.bleNotify p) =
        ({ s with receivedShooterChoice := atoi p, notificationReceived := true }, [])) ∧
    (step s (Event.bleWrite []) = (s, []) ∧ step s (Event.bleNotify []) = (s, [])) := by
  refine ⟨fun hp => ?_, by constructor <;> simp [step, onWrite, notifyCallback]⟩
  have hl : 0 < p.length := List.length_pos.mpr hp
  constructor <;> simp [step, onWrite, notifyCallback, hl]

/-- Witness for C4's amended statement at the payload "4". -/
theorem C4_inbound_message_handling_witness :
    (['4'] : List Char) ≠ [] ∧
    step sInit (Event.bleWrite ['4']) =
      ({ sInit with dodgerChoice := atoi ['4'], dodgerInputReceived := true }, []) :=
  ⟨by decide, ((C4_inbound_message_handling sInit ['4']).1 (by decide)).1⟩

/-- Touch coordinates that hit none of the three barrel buttons. -/
def outsideBarrels (x y : Int) : Prop :=
  ¬ pointInRect x y button1X buttonY buttonWidth buttonHeight ∧
  ¬ pointInRect x y button2X buttonY buttonWidth buttonHeight ∧
  ¬ pointInRect x y button3X buttonY buttonWidth buttonHeight

instance (x y : Int) : Decidable (outsideBarrels x y) :=
  inferInstanceAs (Decidable (¬ _ ∧ ¬ _ ∧ ¬ _))

theorem selectBarrel_outside {x y : Int} (h : outsideBarrels x y) (old : Int) :
    selectBarrel x y old = old := by
  obtain ⟨h1, h2, h3⟩ := h
  simp [selectBarrel, h1, h2, h3]

/-- Shooter run reaching round 2: round 1 is resolved safe (both barrel 2),
round 2's dodger choice ("1") arrives, and then a touch at (0, 0) — hitting
no barrel button — is processed in `SHOOTER_WAIT_INPUT`. -/
def C7run : GameState :=
  runEvents sInit
    [Event.bleWrite ['2'], Event.tick none, Event.tick (some (160, 200)),
     Event.tick none, Event.bleWrite ['1'], Event.tick none,
     Event.tick (some (0, 0))]

/-- C7 counterexample: in round 2 the out-of-bounds touch at (0, 0) is NOT
ignored — the stale `shooterChoice = 2` from round 1 passes the `1..3`
guard, the round is resolved against it and the machine transitions to
`SHOOTER_SHOW_RESULT`, contradicting the claim that such an event causes no
transition in every round. -/
theorem C7_stray_touch_transitions_in_round_two :
    outsideBarrels 0 0 ∧
    C7run.roundNumber = 2 ∧
    C7run.shooterState = ShooterState.SHOOTER_SHOW_RESULT ∧
    C7run.shooterChoice = 2 ∧
    C7run.gameOver = true := by
  decide

/-- C7 (amended): a touch hitting none of the barrel buttons is ignored (no
choice recorded, nothing sent, no transition) only while the device's own
choice variable is still outside [1, 3] — i.e. in the first round after a
reset; once a previous round has left an in-range stale choice, the same
out-of-bounds touch passes the guard and triggers the normal
commit/send/resolve transition using that stale choice. -/
theorem C7_out_of_bounds_touch (s : GameState) (x y : Int) (h : outsideBarrels x y) :
    (s.deviceRole = Role.ROLE_SHOOTER →
      s.shooterState = ShooterState.SHOOTER_WAIT_INPUT →
      (¬ (1 ≤ s.shooterChoice ∧ s.shooterChoice ≤ 3) →
        step s (Event.tick (some (x, y))) = (s, [])) ∧
      ((1 ≤ s.shooterChoice ∧ s.shooterChoice ≤ 3) →
        (step s (Event.tick (some (x, y)))).1.shooterState =
          ShooterState.SHOOTER_SHOW_RESULT ∧
        (step s (Event.tick (some (x, y)))).1.shooterChoice = s.shooterChoice)) ∧
    (s.deviceRole = Role.ROLE_DODGER →
      s.dodgerState = DodgerState.DODGER_WAIT_INPUT →
      (¬ (1 ≤ s.dodgerChoice ∧ s.dodgerChoice ≤ 3) →
        step s (Event.tick (some (x, y))) = (s, [])) ∧
      ((1 ≤ s.dodgerChoice ∧ s.dodgerChoice ≤ 3) →
        (step s (Event.tick (some (x, y)))).1.dodgerState =
          DodgerState.DODGER_WAIT_SHOT ∧
        (step s (Event.tick (some (x, y)))).1.dodgerChoice = s.dodgerChoice)) := by
  obtain ⟨role, ss, ds, rn, go, safe, dc, sc, conn, l1, l2, rsc, rcp⟩ := s
  dsimp only
  constructor
  · rintro rfl rfl
    constructor
    · intro hguard
      simp [step, shooterTick, selectBarrel_outside h, hguard]
    · intro hguard
      simp [step, shooterTick, selectBarrel_outside h, hguard]
      split <;> rfl
  · rintro rfl rfl
    constructor
    · intro hguard
      simp [step, dodgerTick, selectBarrel_outside h, hguard]
    · intro hguard
      simp [step, dodgerTick, selectBarrel_outside h, hguard]

/-- Shooter state waiting for its own input in round 1 (choice still 0). -/
def C7wState : GameState :=
  { sInit with shooterState := ShooterState.SHOOTER_WAIT_INPUT }

/-- Witness for C7's amended statement: in round 1 the out-of-bounds touch
at (0, 0) is a complete no-op. -/
theorem C7_out_of_bounds_touch_witness :
    outsideBarrels 0 0 ∧ step C7wState (Event.tick (some (0, 0))) = (C7wState, []) :=
  ⟨by decide,
   ((C7_out_of_bounds_touch C7wState 0 0 (by decide)).1 rfl rfl).1 (by decide)⟩

/-- C2: at a round's result state, the step taken after the display dwell
moves to the game-over state iff the eliminated flag (`gameOver`) is set or
`MAX_ROUNDS` (5) rounds are completed with the last round safe; otherwise
the round counter is incremented and the machine starts the next round's
waiting state. This holds on both devices. -/
theorem C2_session_end_condition (s : GameState) (t : Option (Int × Int)) :
    (s.deviceRole = Role.ROLE_SHOOTER →
      s.shooterState = ShooterState.SHOOTER_SHOW_RESULT →
      ((step s (Event.tick t)).1.shooterState = ShooterState.SHOOTER_GAME_OVER ↔
        (s.gameOver = true ∨ (MAX_ROUNDS ≤ s.roundNumber ∧ s.roundResultSafe = true))) ∧
      (¬ (s.gameOver = true ∨ (MAX_ROUNDS ≤ s.roundNumber ∧ s.roundResultSafe = true)) →
        (step s (Event.tick t)).1.shooterState = ShooterState.SHOOTER_WAIT_DODGER ∧
        (step s (Event.tick t)).1.roundNumber = s.roundNumber + 1)) ∧
    (s.deviceRole = Role.ROLE_DODGER →
      s.dodgerState = DodgerState.DODGER_SHOW_RESULT →
      ((step s (Event.tick t)).1.dodgerState = DodgerState.DODGER_GAME_OVER ↔
        (s.gameOver = true ∨ (MAX_ROUNDS ≤ s.roundNumber ∧ s.roundResultSafe = true))) ∧
      (¬ (s.gameOver = true ∨ (MAX_ROUNDS ≤ s.roundNumber ∧ s.roundResultSafe = true)) →
        (step s (Event.tick t)).1.dodgerState = DodgerState.DODGER_WAIT_INPUT ∧
        (step s (Event.tick t)).1.roundNumber = s.roundNumber + 1)) := by
  obtain ⟨role, ss, ds, rn, go, safe, dc, sc, conn, l1, l2, rsc, rcp⟩ := s
  dsimp only
  constructor
  · rintro rfl rfl
    constructor
    · constructor
      · intro hend
        by_contra hc
        simp [step, shooterTick, hc] at hend
      · intro hcond
        simp [step, shooterTick, hcond]
    · intro hcond
      simp [step, shooterTick, hcond]
  · rintro rfl rfl
    constructor
    · constructor
      · intro hend
        by_contra hc
        simp [step, dodgerTick, hc] at hend
      · intro hcond
        simp [step, dodgerTick, hcond]
    · intro hcond
      simp [step, dodgerTick, hcond]

/-- Shooter state displaying a hit result in round 1. -/
def C2wState : GameState :=
  { sInit with shooterState := ShooterState.SHOOTER_SHOW_RESULT,
               gameOver := true, roundResultSafe := false }

/-- Witness for C2: from a result state with the eliminated flag set, the
next loop iteration enters the game-over state. -/
theorem C2_session_end_condition_witness :
    (step C2wState (Event.tick none)).1.shooterState = ShooterState.SHOOTER_GAME_OVER :=
  ((C2_session_end_condition C2wState none).1 rfl rfl).1.mpr (Or.inl rfl)

/-- C5: ordering of the commit/transmit protocol, as three structural facts
about every possible step. (1) The shooter's selection state
`SHOOTER_WAIT_INPUT` can only be entered by consuming the dodger's received
choice latch from `SHOOTER_WAIT_DODGER`. (2) The shooter's result state —
the only successor of accepting the shooter's own selection — can only be
entered from `SHOOTER_WAIT_INPUT`, so the shooter never accepts its own
selection before the dodger's message arrived. (3) The dodger's observing
state `DODGER_WAIT_SHOT` can only be entered by the step that commits an
in-range choice in `DODGER_WAIT_INPUT` and hands exactly that choice to the
channel, so the initiator transmits before it can observe the responder. -/
theorem C5_initiator_commits_first (s : GameState) (e : Event) :
    ((step s e).1.shooterState = ShooterState.SHOOTER_WAIT_INPUT →
      s.shooterState = ShooterState.SHOOTER_WAIT_INPUT ∨
      (s.shooterState = ShooterState.SHOOTER_WAIT_DODGER ∧
        s.dodgerInputReceived = true)) ∧
    ((step s e).1.shooterState = ShooterState.SHOOTER_SHOW_RESULT →
      s.shooterState = ShooterState.SHOOTER_WAIT_INPUT ∨
      s.shooterState = ShooterState.SHOOTER_SHOW_RESULT) ∧
    ((step s e).1.dodgerState = DodgerState.DODGER_WAIT_SHOT →
      s.dodgerState = DodgerState.DODGER_WAIT_SHOT ∨
      (s.dodgerState = DodgerState.DODGER_WAIT_INPUT ∧
        1 ≤ (step s e).1.dodgerChoice ∧ (step s e).1.dodgerChoice ≤ 3 ∧
        (s.remoteCharPresent = true →
          (step s e).2 = [encode ((step s e).1.dodgerChoice)]))) := by
  obtain ⟨role, ss, ds, rn, go, safe, dc, sc, conn, l1, l2, rsc, rcp⟩ := s
  cases e with
  | tick t =>
      cases role with
      | ROLE_UNDEFINED => simp [step]; tauto
      | ROLE_SHOOTER =>
          cases ss <;> rcases t with _ | ⟨x, y⟩ <;>
            simp [step, shooterTick, resetGame] <;>
            first
            | tauto
            | (split_ifs <;> simp_all)
      | ROLE_DODGER =>
          cases ds <;> rcases t with _ | ⟨x, y⟩ <;>
            simp [step, dodgerTick, resetGame] <;>
            first
            | tauto
            | (split_ifs <;> simp_all)
  | bleWrite p =>
      simp [step, onWrite]
      split_ifs <;> simp_all
  | bleNotify p =>
      simp [step, notifyCallback]
      split_ifs <;> simp_all
  | connect => simp [step]; tauto
  | disconnect => simp [step]; tauto

/-- C6: the eliminated flag (`gameOver`) is sticky. Any step from a state
with `gameOver = true` either leaves the flag true, or is the explicit
restart from a game-over screen, in which case the whole session is reset
by `resetGame` and the machine returns to its initial waiting state. -/
theorem C6_eliminated_flag_monotonic (s : GameState) (e : Event)
    (h : s.gameOver = true) :
    (step s e).1.gameOver = true ∨
    (s.deviceRole = Role.ROLE_SHOOTER ∧
      s.shooterState = ShooterState.SHOOTER_GAME_OVER ∧
      (step s e).1 = { resetGame s with shooterState := ShooterState.SHOOTER_WAIT_DODGER }) ∨
    (s.deviceRole = Role.ROLE_DODGER ∧
      s.dodgerState = DodgerState.DODGER_GAME_OVER ∧
      (step s e).1 = { resetGame s with dodgerState := DodgerState.DODGER_WAIT_INPUT }) := by
  obtain ⟨role, ss, ds, rn, go, safe, dc, sc, conn, l1, l2, rsc, rcp⟩ := s
  cases h
  cases e with
  | tick t =>
      cases role with
      | ROLE_UNDEFINED => simp [step]
      | ROLE_SHOOTER =>
          cases ss <;> rcases t with _ | ⟨x, y⟩ <;>
            simp [step, shooterTick, resetGame] <;> split_ifs <;> simp_all
      | ROLE_DODGER =>
          cases ds <;> rcases t with _ | ⟨x, y⟩ <;>
            simp [step, dodgerTick, resetGame] <;> split_ifs <;> simp_all
  | bleWrite p =>
      simp [step, onWrite]
      split_ifs <;> simp_all
  | bleNotify p =>
      simp [step, notifyCallback]
      split_ifs <;> simp_all
  | connect => simp [step]
  | disconnect => simp [step]

/-- Shooter state displaying a hit result, eliminated flag set. -/
def C6wState : GameState :=
  { sInit with shooterState := ShooterState.SHOOTER_SHOW_RESULT,
               gameOver := true, roundResultSafe := false }

/-- Witness for C6 at a concrete eliminated state and a loop iteration. -/
theorem C6_eliminated_flag_monotonic_witness :
    C6wState.gameOver = true ∧
    ((step C6wState (Event.tick none)).1.gameOver = true ∨
     (C6wState.deviceRole = Role.ROLE_SHOOTER ∧
       C6wState.shooterState = ShooterState.SHOOTER_GAME_OVER ∧
       (step C6wState (Event.tick none)).1 =
         { resetGame C6wState with shooterState := ShooterState.SHOOTER_WAIT_DODGER }) ∨
     (C6wState.deviceRole = Role.ROLE_DODGER ∧
       C6wState.dodgerState = DodgerState.DODGER_GAME_OVER ∧
       (step C6wState (Event.tick none)).1 =
         { resetGame C6wState with dodgerState := DodgerState.DODGER_WAIT_INPUT })) :=
  ⟨rfl, C6_eliminated_flag_monotonic C6wState (Event.tick none) rfl⟩

/-- C8: the connection status only gates the outbound send, never the local
transition. For any loop iteration, the game variables evolve identically
whatever the values of `deviceConnected` / `pRemoteCharacteristic`, and when
both are absent nothing is handed to the channel. -/
theorem C8_disconnected_send_dropped (s : GameState) (t : Option (Int × Int))
    (c1 r1 c2 r2 : Bool) :
    localVars ((step { s with deviceConnected := c1, remoteCharPresent := r1 }
        (Event.tick t)).1) =
      localVars ((step { s with deviceConnected := c2, remoteCharPresent := r2 }
        (Event.tick t)).1) ∧
    (step { s with deviceConnected := false, remoteCharPresent := false }
        (Event.tick t)).2 = [] := by
  obtain ⟨role, ss, ds, rn, go, safe, dc, sc, conn, l1, l2, rsc, rcp⟩ := s
  cases role with
  | ROLE_UNDEFINED => simp [step, localVars]
  | ROLE_SHOOTER =>
      cases ss <;> rcases t with _ | ⟨x, y⟩ <;>
        simp [step, shooterTick, resetGame, localVars] <;> split_ifs <;> simp_all
  | ROLE_DODGER =>
      cases ds <;> rcases t with _ | ⟨x, y⟩ <;>
        simp [step, dodgerTick, resetGame, localVars] <;> split_ifs <;> simp_all

/-- The device role is fixed by `setup()` and never changed by `loop()` or
the BLE callbacks. -/
theorem step_deviceRole (s : GameState) (e : Event) :
    (step s e).1.deviceRole = s.deviceRole := by
  obtain ⟨role, ss, ds, rn, go, safe, dc, sc, conn, l1, l2, rsc, rcp⟩ := s
  cases e with
  | tick t =>
      cases role with
      | ROLE_UNDEFINED => simp [step]
      | ROLE_SHOOTER =>
          cases ss <;> rcases t with _ | ⟨x, y⟩ <;>
            simp [step, shooterTick, resetGame] <;> split_ifs <;> simp_all
      | ROLE_DODGER =>
          cases ds <;> rcases t with _ | ⟨x, y⟩ <;>
            simp [step, dodgerTick, resetGame] <;> split_ifs <;> simp_all
  | bleWrite p => simp [step, onWrite]; split_ifs <;> simp_all
  | bleNotify p => simp [step, notifyCallback]; split_ifs <;> simp_all
  | connect => simp [step]
  | disconnect => simp [step]

theorem reach_deviceRole {init s : GameState} (h : Reachable init s) :
    s.deviceRole = init.deviceRole := by
  induction h with
  | refl => rfl
  | tail s e _ ih => rw [step_deviceRole]; exact ih

/-- Invariant tying the shooter machine's control state to the result flags:
in the two waiting states the eliminated flag is clear, and in the result
and game-over states the eliminated flag is the negation of
`roundResultSafe`. -/
def shooterInv (s : GameState) : Prop :=
  (s.shooterState = ShooterState.SHOOTER_WAIT_DODGER → s.gameOver = false) ∧
  (s.shooterState = ShooterState.SHOOTER_WAIT_INPUT → s.gameOver = false) ∧
  (s.shooterState = ShooterState.SHOOTER_SHOW_RESULT → s.gameOver = !s.roundResultSafe) ∧
  (s.shooterState = ShooterState.SHOOTER_GAME_OVER → s.gameOver = !s.roundResultSafe)

/-- Invariant tying the dodger machine's control state to the result flags. -/
def dodgerInv (s : GameState) : Prop :=
  (s.dodgerState = DodgerState.DODGER_WAIT_INPUT → s.gameOver = false) ∧
  (s.dodgerState = DodgerState.DODGER_WAIT_SHOT → s.gameOver = false) ∧
  (s.dodgerState = DodgerState.DODGER_SHOW_RESULT → s.gameOver = !s.roundResultSafe) ∧
  (s.dodgerState = DodgerState.DODGER_GAME_OVER → s.gameOver = !s.roundResultSafe)

theorem shooterInv_step (s : GameState) (e : Event)
    (hrole : s.deviceRole = Role.ROLE_SHOOTER) (h : shooterInv s) :
    shooterInv (step s e).1 := by
  obtain ⟨role, ss, ds, rn, go, safe, dc, sc, conn, l1, l2, rsc, rcp⟩ := s
  obtain ⟨h1, h2, h3, h4⟩ := h
  simp only at hrole
  subst hrole
  cases e with
  | tick t =>
      cases ss <;> rcases t with _ | ⟨x, y⟩ <;>
        simp_all [step, shooterTick, resetGame, shooterInv] <;>
        split_ifs <;> simp_all
  | bleWrite p =>
      simp_all [step, onWrite, shooterInv]
      split_ifs <;> simp_all
  | bleNotify p =>
      simp_all [step, notifyCallback, shooterInv]
      split_ifs <;> simp_all
  | connect => simp_all [step, shooterInv]
  | disconnect => simp_all [step, shooterInv]

theorem dodgerInv_step (s : GameState) (e : Event)
    (hrole : s.deviceRole = Role.ROLE_DODGER) (h : dodgerInv s) :
    dodgerInv (step s e).1 := by
  obtain ⟨role, ss, ds, rn, go, safe, dc, sc, conn, l1, l2, rsc, rcp⟩ := s
  obtain ⟨h1, h2, h3, h4⟩ := h
  simp only at hrole
  subst hrole
  cases e with
  | tick t =>
      cases ds <;> rcases t with _ | ⟨x, y⟩ <;>
        simp_all [step, dodgerTick, resetGame, dodgerInv] <;>
        split_ifs <;> simp_all
  | bleWrite p =>
      simp_all [step, onWrite, dodgerInv]
      split_ifs <;> simp_all
  | bleNotify p =>
      simp_all [step, notifyCallback, dodgerInv]
      split_ifs <;> simp_all
  | connect => simp_all [step, dodgerInv]
  | disconnect => simp_all [step, dodgerInv]

theorem reach_shooterInv {rc : Bool} {s : GameState}
    (h : Reachable (initState Role.ROLE_SHOOTER rc) s) : shooterInv s := by
  induction h with
  | refl => simp [shooterInv, initState]
  | tail u e hu ih =>
      exact shooterInv_step u e (reach_deviceRole hu) ih

theorem reach_dodgerInv {rc : Bool} {s : GameState}
    (h : Reachable (initState Role.ROLE_DODGER rc) s) : dodgerInv s := by
  induction h with
  | refl => simp [dodgerInv, initState]
  | tail u e hu ih =>
      exact dodgerInv_step u e (reach_deviceRole hu) ih

theorem reachable_extend {init s : GameState} (h : Reachable init s) :
    ∀ es : List Event, Reachable init (runEvents s es) := by
  intro es
  induction es generalizing s with
  | nil => exact h
  | cons e es ih => exact ih (Reachable.tail s e h)

theorem reachable_runEvents (init : GameState) (es : List Event) :
    Reachable init (runEvents init es) :=
  reachable_extend Reachable.refl es

/-- C10: in every reachable state of either role's machine, the game-over
flag implies the last round was recorded unsafe, and on the terminal screen
the verdict computed by `drawGameOverScreen` from `roundResultSafe` equals
the verdict derived from the elimination flag. -/
theorem C10_gameOver_unsafe_and_verdict_agree (rc : Bool) (s : GameState) :
    (Reachable (initState Role.ROLE_SHOOTER rc) s →
      (s.gameOver = true → s.roundResultSafe = false) ∧
      (s.shooterState = ShooterState.SHOOTER_GAME_OVER →
        verdictWin Role.ROLE_SHOOTER s.roundResultSafe =
          verdictFromEliminated Role.ROLE_SHOOTER s.gameOver)) ∧
    (Reachable (initState Role.ROLE_DODGER rc) s →
      (s.gameOver = true → s.roundResultSafe = false) ∧
      (s.dodgerState = DodgerState.DODGER_GAME_OVER →
        verdictWin Role.ROLE_DODGER s.roundResultSafe =
          verdictFromEliminated Role.ROLE_DODGER s.gameOver)) := by
  constructor
  · intro hreach
    obtain ⟨h1, h2, h3, h4⟩ := reach_shooterInv hreach
    constructor
    · intro hgo
      cases hss : s.shooterState
      · exact absurd (h1 hss ▸ hgo) (by simp)
      · exact absurd (h2 hss ▸ hgo) (by simp)
      · have := h3 hss
        rw [hgo] at this
        simpa using this.symm
      · have := h4 hss
        rw [hgo] at this
        simpa using this.symm
    · intro hss
      have := h4 hss
      simp [verdictWin, verdictFromEliminated, this]
  · intro hreach
    obtain ⟨h1, h2, h3, h4⟩ := reach_dodgerInv hreach
    constructor
    · intro hgo
      cases hds : s.dodgerState
      · exact absurd (h1 hds ▸ hgo) (by simp)
      · exact absurd (h2 hds ▸ hgo) (by simp)
      · have := h3 hds
        rw [hgo] at this
        simpa using this.symm
      · have := h4 hds
        rw [hgo] at this
        simpa using this.symm
    · intro hds
      have := h4 hds
      simp [verdictWin, verdictFromEliminated, this]

/-- Event list driving the dodger device to its game-over screen: the
dodger hides in barrel 1, the shooter's notification says barrel 2, the
result is displayed and the terminal state entered. -/
def C3dEvents : List Event :=
  [Event.tick (some (60, 200)), Event.bleNotify ['2'], Event.tick none,
   Event.tick none]

/-- Terminal dodger state reached by `C3dEvents`. -/
def C3dFinal : GameState := runEvents dInit C3dEvents

/-- Event list driving the shooter device to its game-over screen: the
dodger's write says barrel 1, the shooter shoots barrel 2, the result is
displayed and the terminal state entered. -/
def C3sEvents : List Event :=
  [Event.bleWrite ['1'], Event.tick none, Event.tick (some (160, 200)),
   Event.tick none]

/-- Terminal shooter state reached by `C3sEvents`. -/
def C3sFinal : GameState := runEvents sInit C3sEvents

/-- C3: on every reachable terminal screen, the dodger (Initiator) device
shows Lose exactly when the eliminated flag is set, the shooter (Responder)
device shows Win exactly when the eliminated flag is set, and for any value
of the shared round-result flag the two roles' verdicts differ, so exactly
one side wins. -/
theorem C3_terminal_verdicts (rc : Bool) (s t : GameState)
    (hds : Reachable (initState Role.ROLE_DODGER rc) s)
    (hdgo : s.dodgerState = DodgerState.DODGER_GAME_OVER)
    (hss : Reachable (initState Role.ROLE_SHOOTER rc) t)
    (hsgo : t.shooterState = ShooterState.SHOOTER_GAME_OVER) :
    (verdictWin Role.ROLE_DODGER s.roundResultSafe = false ↔ s.gameOver = true) ∧
    (verdictWin Role.ROLE_SHOOTER t.roundResultSafe = true ↔ t.gameOver = true) ∧
    (∀ safe : Bool, verdictWin Role.ROLE_DODGER safe ≠ verdictWin Role.ROLE_SHOOTER safe) := by
  obtain ⟨-, -, -, hd4⟩ := reach_dodgerInv hds
  obtain ⟨-, -, -, hs4⟩ := reach_shooterInv hss
  refine ⟨?_, ?_, ?_⟩
  · rw [hd4 hdgo]
    cases s.roundResultSafe <;> simp [verdictWin]
  · rw [hs4 hsgo]
    cases t.roundResultSafe <;> simp [verdictWin]
  · intro safe
    cases safe <;> simp [verdictWin]

/-- Witness for C3 at concrete terminal states of both devices. -/
theorem C3_terminal_verdicts_witness :
    (verdictWin Role.ROLE_DODGER C3dFinal.roundResultSafe = false ↔
      C3dFinal.gameOver = true) ∧
    (verdictWin Role.ROLE_SHOOTER C3sFinal.roundResultSafe = true ↔
      C3sFinal.gameOver = true) :=
  ⟨(C3_terminal_verdicts true C3dFinal C3sFinal
      (reachable_runEvents (initState Role.ROLE_DODGER true) C3dEvents)
      (by decide)
      (reachable_runEvents (initState Role.ROLE_SHOOTER true) C3sEvents)
      (by decide)).1,
   (C3_terminal_verdicts true C3dFinal C3sFinal
      (reachable_runEvents (initState Role.ROLE_DODGER true) C3dEvents)
      (by decide)
      (reachable_runEvents (initState Role.ROLE_SHOOTER true) C3sEvents)
      (by decide)).2.1⟩

/-- Witness for C10 at a concrete reachable terminal shooter state. -/
theorem C10_gameOver_unsafe_and_verdict_agree_witness :
    C3sFinal.roundResultSafe = false ∧
    verdictWin Role.ROLE_SHOOTER C3sFinal.roundResultSafe =
      verdictFromEliminated Role.ROLE_SHOOTER C3sFinal.gameOver :=
  ⟨((C10_gameOver_unsafe_and_verdict_agree true C3sFinal).1
      (reachable_runEvents (initState Role.ROLE_SHOOTER true) C3sEvents)).1
    (by decide),
   ((C10_gameOver_unsafe_and_verdict_agree true C3sFinal).1
      (reachable_runEvents (initState Role.ROLE_SHOOTER true) C3sEvents)).2
    (by decide)⟩

/-- Shooter state still waiting for the dodger, with the dodger's choice
latch already set by a BLE write. -/
def C5wState : GameState := { sInit with dodgerInputReceived := true }

/-- Witness for C5: the step that enters the shooter's selection state from
the concrete waiting state consumed the dodger's received-choice latch. -/
theorem C5_initiator_commits_first_witness :
    (step C5wState (Event.tick none)).1.shooterState = ShooterState.SHOOTER_WAIT_INPUT ∧
    (C5wState.shooterState = ShooterState.SHOOTER_WAIT_INPUT ∨
      (C5wState.shooterState = ShooterState.SHOOTER_WAIT_DODGER ∧
        C5wState.dodgerInputReceived = true)) :=
  ⟨by decide, (C5_initiator_commits_first C5wState (Event.tick none)).1 (by decide)⟩
